import Mathlib

/-!
Verification development for the scatsimclr repository.

The definitions below are a shallow embedding of the Python sources:
- `src/src/trainer/pretext_task_trainer.py` (class `PretextTaskTrainer`)
- `src/src/data/open_animal_tracks.py` (class `OpenAnimalTracks`)
- `src/src/data/customdataset.py` (class `CustomDataset`)

Tensor scalars (losses, accuracies) are modelled as rationals; file paths
and file names as strings; the mutable training state as explicit folds.
-/

namespace ScatSimCLR

/-! ## Pretext-task selection check (`PretextTaskTrainer.__init__`, lines 38-42)

The constructor reads the two boolean flags and evaluates
`if sum((self._jigsaw, self._rotation)) > 0 or sum((self._jigsaw, self._rotation)) == 0:
    raise ValueError(...)`.
Python sums the booleans as 0/1 integers. -/

/-- `sum((self._jigsaw, self._rotation))`: the Python sum of the two flags. -/
def pretextSelectionSum (jigsaw rotation : Bool) : ℕ :=
  jigsaw.toNat + rotation.toNat

/-- Line 41 of the trainer: `True` exactly when the constructor raises the
`ValueError` about pretext-task selection. Transcribed verbatim: the guard is
`sum > 0 or sum == 0`. -/
def pretextSelectionRaises (jigsaw rotation : Bool) : Bool :=
  decide (pretextSelectionSum jigsaw rotation > 0)
    || decide (pretextSelectionSum jigsaw rotation = 0)

/-- Errors the trainer can signal. -/
inductive TrainerError
  | pretextSelection
  | unsupportedModel
deriving DecidableEq, Repr

/-- `PretextTaskTrainer.__init__` (lines 35-96): the only guard it evaluates is
the pretext-selection check; it never reads `model.base_model`, so the
constructor cannot raise the unsupported-model error (that check lives in
`_get_embeddings_model`, reached from `train`). -/
def trainerInitError (jigsaw rotation : Bool) : Option TrainerError :=
  if pretextSelectionRaises jigsaw rotation then some TrainerError.pretextSelection
  else none

/-! ## Per-batch step metrics and the combined loss (lines 93-94, 131-140) -/

/-- The triple returned by `PretextTaskTrainer._step`. -/
structure StepMetrics where
  lossContrastive : ℚ
  lossPretext : ℚ
  accPretext : ℚ
deriving DecidableEq, Repr

/-- `self._loss_lambda = 0.3` (line 94): fixed in the constructor, not read
from the configuration. -/
def loss_lambda : ℚ := 3 / 10

/-- Line 136: `loss = loss_contrastive + self._loss_lambda * loss_pretext`. -/
def combinedLoss (lossContrastive lossPretext : ℚ) : ℚ :=
  lossContrastive + loss_lambda * lossPretext

/-- The losses backpropagated over one training epoch: line 136 applied to
each batch of the epoch in order. -/
def backpropLosses (batches : List StepMetrics) : List ℚ :=
  batches.map (fun m => combinedLoss m.lossContrastive m.lossPretext)

/-! ## `PretextTaskTrainer._validate` (lines 180-212)

The loop accumulates `loss_contrastive_total`, `loss_pretext_total`,
`acc_pretext_total` and `counter`, divides the totals by the counter —
and then line 212 returns `loss_contrastive, loss_pretext, acc_pretext`,
the loop variables from the LAST iteration, not the averaged totals. -/

/-- One iteration of the `_validate` loop (lines 195-201): add the three
per-batch metrics to the totals, bump the counter, remember the current
loop variables. -/
def validateStep (st : ℚ × ℚ × ℚ × ℕ × Option StepMetrics) (m : StepMetrics) :
    ℚ × ℚ × ℚ × ℕ × Option StepMetrics :=
  (st.1 + m.lossContrastive, st.2.1 + m.lossPretext,
    st.2.2.1 + m.accPretext, st.2.2.2.1 + 1, some m)

/-- The loop state of `_validate`: the three running totals, the batch
counter, and the current values of the per-batch loop variables. -/
def validateFold (batches : List StepMetrics) :
    ℚ × ℚ × ℚ × ℕ × Option StepMetrics :=
  batches.foldl validateStep (0, 0, 0, 0, none)

/-- What `_validate` returns (line 212): the loop variables of the last
iteration, `none` when the loader is empty (in Python the names would be
unbound there). -/
def validateResult (batches : List StepMetrics) : Option StepMetrics :=
  (validateFold batches).2.2.2.2

/-- The averaged accumulators computed on lines 203-205 (and then discarded
by the `return` on line 212). -/
def validateAverages (batches : List StepMetrics) : ℚ × ℚ × ℚ :=
  let st := validateFold batches
  (st.1 / st.2.2.2.1, st.2.1 / st.2.2.2.1, st.2.2.1 / st.2.2.2.1)

/-! ## Best-validation checkpointing (`train`, lines 122, 149-155)

`best_valid_loss = np.inf`; then at each validation epoch:
`if best_valid_loss > loss_contrastive_valid:` save and
`best_valid_loss = loss_contrastive_valid`.
The record is an `Option ℚ` with `none` standing for `np.inf`. -/

/-- `best_valid_loss > x` where the record may still be `np.inf` (`none`). -/
def infGt : Option ℚ → ℚ → Bool
  | none, _ => true
  | some b, x => decide (x < b)

/-- The update of `best_valid_loss` on lines 150-151: replaced by the new
loss exactly when the guard fires (the same branch that writes the files). -/
def updateBest (best : Option ℚ) (l : ℚ) : Option ℚ :=
  if infGt best l then some l else best

/-- For each validation epoch in order, whether the best-model checkpoint is
written (the branch on lines 150-155), threading the best-loss record. -/
def checkpointWrites : Option ℚ → List ℚ → List Bool
  | _, [] => []
  | best, l :: ls => infGt best l :: checkpointWrites (updateBest best l) ls

/-! ## Checkpoint file names (lines 152-155, 163, 175-178)

`torch.save` targets inside `checkpoint_folder`, transcribed from the calls:
best-by-validation saves `model.pth` and `model_<mode>.pth`; best-by-accuracy
saves `model.pth`; the final save writes `model_final.pth` and
`model_<mode>_final.pth`. -/

/-- Line 152: backbone file written on a best-validation epoch. -/
def bestValidModelFile : String := "model.pth"

/-- Line 163: backbone file written on a best-accuracy epoch. -/
def bestAccModelFile : String := "model.pth"

/-- Line 175: backbone file written unconditionally at the end of training. -/
def finalModelFile : String := "model_final.pth"

/-- Line 155: pretext-head file written on a best-validation epoch
(`mode` is the `_name_postfix`, `jigsaw` or `rotation`). -/
def bestValidHeadFile (mode : String) : String := "model_" ++ mode ++ ".pth"

/-- Line 178: pretext-head file written at the end of training. -/
def finalHeadFile (mode : String) : String := "model_" ++ mode ++ "_final.pth"

/-- A checkpoint directory: file name to content version (`none` = absent). -/
def FileStore : Type := String → Option ℕ

/-- `torch.save(..., folder / path)`: overwrites the named file, leaves every
other file untouched. -/
def writeFile (s : FileStore) (path : String) (v : ℕ) : FileStore :=
  fun p => if p = path then some v else s p

/-! ## Pretext accuracy (`_step`, lines 289-292)

`pred = torch.max(h_, 1)`; `acc = torch.sum(pred[1] == y_) * 1.0 / len(y_)`.
`preds` stands for the argmax indices `pred[1]`, `labels` for `y_`. -/

/-- `torch.sum(pred[1] == y_)`: elementwise equality summed over the batch. -/
def matchCount (preds labels : List ℕ) : ℕ :=
  (List.zipWith (fun p l => if p = l then (1 : ℕ) else 0) preds labels).sum

/-- Line 291: exact-match count divided by `len(y_)`. -/
def stepAccuracy (preds labels : List ℕ) : ℚ :=
  (matchCount preds labels : ℚ) / (labels.length : ℚ)

/-! ## `train` set-up order and the model-name check (lines 98-113, 294-297) -/

/-- Observable events of the training procedure. -/
inductive TrainEvent
  | allocDataLoaders
  | allocModel
  | allocOptimizer
  | errorUnsupportedModel
  | batchStep
  | validateRun
  | evalRun
  | schedStep
deriving DecidableEq, Repr

/-- Line 33 of the trainer. -/
def EMBEDDINGS_MODELS : List String :=
  ["resnet18", "resnet50", "scatsimclr8", "scatsimclr12", "scatsimclr16", "scatsimclr30"]

/-- The set-up phase of `train` (lines 98-113) in program order: the dataset
wrapper and its loaders are created first (lines 99-103); only then is
`_get_embeddings_model` called (line 106), which raises
`ValueError(Unsupported model)` when the name is not in `EMBEDDINGS_MODELS`
(lines 296-297); on success the model and then the optimizer are created. -/
def trainSetupEvents (baseModel : String) : List TrainEvent :=
  [TrainEvent.allocDataLoaders] ++
    (if baseModel ∈ EMBEDDINGS_MODELS then
      [TrainEvent.allocModel, TrainEvent.allocOptimizer]
    else
      [TrainEvent.errorUnsupportedModel])

/-! ## Epoch structure and the learning-rate schedule (lines 125-172)

`CosineAnnealingLR(optimizer, T_max=len(train_loader), ...)` (line 112);
inside the epoch loop, after the batch loop, validation and classification
blocks, `if epoch_counter >= 10: scheduler.step()` (lines 170-171). -/

/-- Line 112: the annealing period passed to `CosineAnnealingLR` is the
number of training batches of one epoch. -/
def cosineAnnealingTMax (numBatches : ℕ) : ℕ := numBatches

/-- The events of epoch `e` in program order: the training batches, the
optional validation run (`epoch % validate_every_n_epochs == 0`), the
optional classification evaluation (`epoch % eval_every_n_epochs == 0`),
and last the scheduler step, taken only when `e >= 10`. -/
def epochEvents (numBatches validateEvery evalEvery e : ℕ) : List TrainEvent :=
  List.replicate numBatches TrainEvent.batchStep
    ++ (if e % validateEvery = 0 then [TrainEvent.validateRun] else [])
    ++ (if e % evalEvery = 0 then [TrainEvent.evalRun] else [])
    ++ (if 10 ≤ e then [TrainEvent.schedStep] else [])

/-- `for epoch_counter in range(1, epochs + 1)` (line 125): the concatenated
event lists of epochs `1 .. epochs`. -/
def trainLoopEvents (numBatches validateEvery evalEvery : ℕ) : ℕ → List TrainEvent
  | 0 => []
  | n + 1 =>
      trainLoopEvents numBatches validateEvery evalEvery n
        ++ epochEvents numBatches validateEvery evalEvery (n + 1)

/-! ## `OpenAnimalTracks.__init__` (`src/src/data/open_animal_tracks.py`, lines 14-33)

`self.data_path = os.path.join(self.root, data_folder)`;
`self.image_files = glob(os.path.join(self.data_path, a jpg pattern))`;
when the list is empty it raises `RuntimeError` with a message naming
`self.data_path`. The directory listing is passed in as `dirFiles`. -/

/-- Python `str.endswith`, expressed on the character lists of the two
strings. -/
def strEndsWith (s t : String) : Bool :=
  List.isSuffixOf t.data s.data

/-- Python `str.startswith`, expressed on the character lists. -/
def strStartsWith (s t : String) : Bool :=
  List.isPrefixOf t.data s.data

/-- Whether a file name in the folder is matched by the glob pattern for
`.jpg` files: it must end in `.jpg`, and glob skips names that start with a
dot. -/
def globJpgMatch (name : String) : Bool :=
  strEndsWith name ".jpg" && !strStartsWith name "."

/-- The `dataset` section of the configuration used by the wrapper. -/
structure DatasetConfig where
  dataRoot : String
  trainDir : String
  testDir : String
deriving DecidableEq, Repr

/-- Line 26-27: `data_folder` is `train_dir` or `test_dir` depending on the
split, joined to `data_root`. -/
def oatDataPath (cfg : DatasetConfig) (train : Bool) : String :=
  cfg.dataRoot ++ "/" ++ (if train then cfg.trainDir else cfg.testDir)

/-- Lines 30-33: filter the folder listing by the glob pattern; raise when
nothing matched, with the message naming the path, otherwise keep the list
of matched files. -/
def openAnimalTracksInit (cfg : DatasetConfig) (train : Bool)
    (dirFiles : List String) : Except String (List String) :=
  let imageFiles := dirFiles.filter globJpgMatch
  if imageFiles.length = 0 then
    Except.error ("Görüntü bulunamadı: " ++ oatDataPath cfg train)
  else
    Except.ok imageFiles

/-! ## `CustomDataset.__init__` (`src/src/data/customdataset.py`, lines 6-27)

Python attribute access modelled by an association list of attribute names.
`__init__` assigns `self.root`, `self.transform`, `self.train`, then calls
`self._get_image_paths()`, which reads `self.root_dir` — an attribute no
method ever assigns, so the read raises `AttributeError`. -/

/-- Python values stored in the attributes of the instance. -/
inductive PyVal
  | str (s : String)
  | boolean (b : Bool)
  | pyNone
  | strList (l : List String)
deriving DecidableEq, Repr

/-- `self.<name> = v`: newest assignment shadows older ones. -/
def setAttr (attrs : List (String × PyVal)) (name : String) (v : PyVal) :
    List (String × PyVal) :=
  (name, v) :: attrs

/-- `self.<name>`: `none` models the `AttributeError` of a missing
attribute. -/
def getAttr (attrs : List (String × PyVal)) (name : String) : Option PyVal :=
  (attrs.find? (fun p => p.1 == name)).map Prod.snd

/-- Line 21 of `customdataset.py`. -/
def image_extensions : List String := [".jpg", ".jpeg", ".png", ".bmp", ".tiff"]

/-- Line 25: `any(file.lower().endswith(ext) for ext in image_extensions)`. -/
def isImageFile (file : String) : Bool :=
  image_extensions.any (fun ext => strEndsWith file.toLower ext)

/-- `CustomDataset._get_image_paths` (lines 19-27): walks `self.root_dir`
(`walkFiles` models `os.walk` flattened to the file names it yields) and
filters by extension. The read of the attribute `root_dir` happens first. -/
def get_image_paths (attrs : List (String × PyVal))
    (walkFiles : String → List String) : Except String (List String) :=
  match getAttr attrs "root_dir" with
  | none =>
      Except.error "AttributeError: CustomDataset object has no attribute root_dir"
  | some (PyVal.str rootDir) => Except.ok ((walkFiles rootDir).filter isImageFile)
  | some _ => Except.error "TypeError"

/-- `CustomDataset.__init__` (lines 6-17): assigns `root`, `transform`,
`train` (in source order) and then stores the result of
`self._get_image_paths()` in `image_paths`. -/
def customDatasetInit (root : String) (train : Bool) (transform : PyVal)
    (download : Bool) (walkFiles : String → List String) :
    Except String (List (String × PyVal)) :=
  let a1 := setAttr [] "root" (PyVal.str root)
  let a2 := setAttr a1 "transform" transform
  let a3 := setAttr a2 "train" (PyVal.boolean train)
  match get_image_paths a3 walkFiles with
  | Except.error e => Except.error e
  | Except.ok paths => Except.ok (setAttr a3 "image_paths" (PyVal.strList paths))

/-! # Helper lemmas -/

/-- The last loop variables after folding `validateStep` are the last batch
of the list, or the initial ones when the list is empty. -/
lemma foldl_validateStep_last (batches : List StepMetrics) :
    ∀ st, (batches.foldl validateStep st).2.2.2.2 = batches.getLast?.or st.2.2.2.2 := by
  induction batches with
  | nil => intro st; rfl
  | cons m ms ih =>
      intro st
      rw [List.foldl_cons, ih]
      cases ms with
      | nil => rfl
      | cons a as =>
          rw [List.getLast?_cons_cons]
          obtain ⟨x, hx⟩ : ∃ x, (a :: as).getLast? = some x :=
            ⟨(a :: as).getLast (by simp), List.getLast?_eq_getLast _ _⟩
          rw [hx]
          rfl

/-- Testing the best-loss record after one update. -/
lemma infGt_updateBest (b : Option ℚ) (l x : ℚ) :
    infGt (updateBest b l) x = (infGt b x && decide (x < l)) := by
  cases b with
  | none => simp [updateBest, infGt]
  | some bv =>
      by_cases h1 : l < bv
      · have hub : updateBest (some bv) l = some l := by
          simp [updateBest, infGt, h1]
        rw [hub]
        show decide (x < l) = (decide (x < bv) && decide (x < l))
        by_cases h2 : x < l
        · simp [h2, lt_trans h2 h1]
        · simp [h2]
      · have hub : updateBest (some bv) l = some bv := by
          simp [updateBest, infGt, h1]
        rw [hub]
        show decide (x < bv) = (decide (x < bv) && decide (x < l))
        by_cases h2 : x < bv
        · have hxl : x < l := lt_of_lt_of_le h2 (le_of_not_lt h1)
          simp [h2, hxl]
        · simp [h2]

/-- Testing the best-loss record after folding a whole prefix. -/
lemma foldl_updateBest_infGt (pre : List ℚ) :
    ∀ (b : Option ℚ) (x : ℚ),
      infGt (pre.foldl updateBest b) x
        = (infGt b x && pre.all (fun l => decide (x < l))) := by
  induction pre with
  | nil => intro b x; simp
  | cons a pre ih =>
      intro b x
      rw [List.foldl_cons, ih, infGt_updateBest]
      simp [Bool.and_assoc]

/-- The write flag at position `pre.length` is the best-record test of the
element there against the record accumulated over the prefix. -/
lemma checkpointWrites_getD (pre : List ℚ) :
    ∀ (b : Option ℚ) (x : ℚ) (post : List ℚ),
      (checkpointWrites b (pre ++ x :: post)).getD pre.length false
        = infGt (pre.foldl updateBest b) x := by
  induction pre with
  | nil => intro b x post; rfl
  | cons a pre ih =>
      intro b x post
      simp only [List.cons_append, checkpointWrites, List.length_cons,
        List.getD_cons_succ, List.foldl_cons]
      exact ih (updateBest b a) x post

/-! # Claims -/

/-- C1: the guard on line 41 of the trainer is `sum > 0 or sum == 0`, which
holds for every pair of flags, so the constructor raises the `ValueError`
for every configuration — including those selecting exactly one pretext
task, which the claim (and the error message itself) say must be accepted. -/
theorem pretextSelection_always_raises :
    ∀ (jigsaw rotation : Bool), pretextSelectionRaises jigsaw rotation = true := by
  decide

/-- C1 evidence at the failing input of the claim: `jigsaw=True,
rotation=False` selects exactly one pretext task, yet the constructor
raises. -/
theorem pretextSelection_raises_on_exactly_one :
    pretextSelectionRaises true false = true :=
  pretextSelection_always_raises true false

/-- C2 counterexample: three validation batches with pretext accuracies
`[1/2, 3/5, 7/10]`. The averaged accumulator is `3/5`, but `_validate`
returns the last batch value `7/10`, so the returned pretext accuracy does
not equal the average claimed. -/
theorem validate_not_average_counterexample :
    (validateResult [⟨9/10, 1, 1/2⟩, ⟨11/10, 1, 3/5⟩, ⟨1, 1, 7/10⟩]).map
        StepMetrics.accPretext = some (7/10)
    ∧ (validateAverages [⟨9/10, 1, 1/2⟩, ⟨11/10, 1, 3/5⟩, ⟨1, 1, 7/10⟩]).2.2 = 3/5
    ∧ ((7 : ℚ)/10) ≠ 3/5 := by
  refine ⟨rfl, ?_, by norm_num⟩
  show ((0 + 1/2 + 3/5 + 7/10) / 3 : ℚ) = 3/5
  norm_num

/-- C2 amended: for every non-empty sequence of validation batches,
`_validate` returns the metrics of the LAST batch (line 212 returns the
loop variables, not the averaged totals computed on lines 203-205). -/
theorem validate_returns_last_batch (batches : List StepMetrics)
    (h : batches ≠ []) :
    validateResult batches = batches.getLast? := by
  unfold validateResult validateFold
  rw [foldl_validateStep_last]
  cases hb : batches.getLast? with
  | some x => rfl
  | none => exact absurd (List.getLast?_eq_none_iff.mp hb) h

/-- C2 witness: the amended statement applied to a concrete two-batch run. -/
theorem validate_returns_last_batch_witness :
    validateResult [⟨1, 1, 1/2⟩, ⟨2, 1, 3/5⟩] = some ⟨2, 1, 3/5⟩ := by
  have h := validate_returns_last_batch [⟨1, 1, 1/2⟩, ⟨2, 1, 3/5⟩] (by decide)
  simpa using h

/-- C3: for every training batch the backpropagated loss is
`loss_contrastive + 0.3 * loss_pretext`, with the weight the fixed constant
`self._loss_lambda = 0.3` of the constructor, read from neither data nor
configuration. -/
theorem combined_loss_formula :
    loss_lambda = 3 / 10
    ∧ ∀ (batches : List StepMetrics),
        backpropLosses batches
          = batches.map (fun m => m.lossContrastive + (3 / 10) * m.lossPretext) :=
  ⟨rfl, fun _ => rfl⟩

/-- C3 witness: the formula on a concrete batch. -/
theorem combined_loss_formula_witness :
    backpropLosses [⟨1, 2, 1⟩]
      = [(⟨1, 2, 1⟩ : StepMetrics)].map
          (fun m => m.lossContrastive + (3 / 10) * m.lossPretext) :=
  combined_loss_formula.2 [⟨1, 2, 1⟩]

/-- C4: a best-validation checkpoint is written at a validation epoch iff
the validation contrastive loss there is strictly below every previously
seen one (best record starting at `np.inf`); on the example losses
`[1.2, 0.9, 1.0]` the writes happen exactly at the first two epochs. -/
theorem best_checkpoint_write_iff :
    (∀ (pre post : List ℚ) (x : ℚ),
        ((checkpointWrites none (pre ++ x :: post)).getD pre.length false = true
          ↔ ∀ l ∈ pre, x < l))
    ∧ checkpointWrites none [12/10, 9/10, 1] = [true, true, false] := by
  constructor
  · intro pre post x
    rw [checkpointWrites_getD, foldl_updateBest_infGt]
    simp [infGt, List.all_eq_true]
  · norm_num [checkpointWrites, updateBest, infGt]

/-- C4 witness: at the second epoch of `[1.2, 0.9, ...]` the loss `0.9`
beats every previous loss, so the checkpoint is written there. -/
theorem best_checkpoint_write_iff_witness :
    (checkpointWrites none ([6/5] ++ (9/10 : ℚ) :: [1])).getD 1 false = true :=
  (best_checkpoint_write_iff.1 [6/5] [1] (9/10)).mpr (by norm_num)

/-- Any path of the form `model_<mode>.pth` differs from `model.pth`. -/
lemma bestValidHeadFile_ne_model (mode : String) :
    bestValidHeadFile mode ≠ bestValidModelFile := by
  intro h
  have hlen : (bestValidHeadFile mode).length = (bestValidModelFile).length := by
    rw [h]
  unfold bestValidHeadFile bestValidModelFile at hlen
  rw [String.length_append, String.length_append] at hlen
  have h6 : ("model_" : String).length = 6 := rfl
  have h4 : (".pth" : String).length = 4 := rfl
  have h9 : ("model.pth" : String).length = 9 := rfl
  omega

/-- Any path of the form `model_<mode>_final.pth` differs from `model.pth`. -/
lemma finalHeadFile_ne_model (mode : String) :
    finalHeadFile mode ≠ bestValidModelFile := by
  intro h
  have hlen : (finalHeadFile mode).length = (bestValidModelFile).length := by
    rw [h]
  unfold finalHeadFile bestValidModelFile at hlen
  rw [String.length_append, String.length_append] at hlen
  have h6 : ("model_" : String).length = 6 := rfl
  have h10 : ("_final.pth" : String).length = 10 := rfl
  have h9 : ("model.pth" : String).length = 9 := rfl
  omega

/-- C5 counterexample: the best-by-accuracy save targets the same file name
`model.pth` as the best-by-validation save, so writing the best-by-accuracy
checkpoint (new content `2`) overwrites the best-by-validation checkpoint
(old content `1`) — the file is NOT left unchanged as the claim states. -/
theorem checkpoint_shared_slot_counterexample :
    bestAccModelFile = bestValidModelFile
    ∧ writeFile (fun p => if p = bestValidModelFile then some 1 else none)
        bestAccModelFile 2 bestValidModelFile = some 2 :=
  ⟨rfl, if_pos rfl⟩

/-- C5 amended: the best-by-validation and best-by-accuracy backbone
checkpoints share the single rotating file `model.pth`, so a best-by-accuracy
write replaces the best-by-validation backbone snapshot; the final backbone
file and the pretext-head files are distinct and are left unchanged by that
write. -/
theorem checkpoint_file_effects (s : FileStore) (v : ℕ) (mode : String) :
    bestAccModelFile = bestValidModelFile
    ∧ writeFile s bestAccModelFile v bestValidModelFile = some v
    ∧ finalModelFile ≠ bestValidModelFile
    ∧ writeFile s bestAccModelFile v finalModelFile = s finalModelFile
    ∧ writeFile s bestAccModelFile v (bestValidHeadFile mode)
        = s (bestValidHeadFile mode)
    ∧ writeFile s bestAccModelFile v (finalHeadFile mode)
        = s (finalHeadFile mode) := by
  have heq : bestAccModelFile = bestValidModelFile := rfl
  refine ⟨rfl, if_pos rfl, by decide, if_neg (by decide), ?_, ?_⟩
  · show (if bestValidHeadFile mode = bestAccModelFile then some v
      else s (bestValidHeadFile mode)) = s (bestValidHeadFile mode)
    rw [heq]
    exact if_neg (bestValidHeadFile_ne_model mode)
  · show (if finalHeadFile mode = bestAccModelFile then some v
      else s (finalHeadFile mode)) = s (finalHeadFile mode)
    rw [heq]
    exact if_neg (finalHeadFile_ne_model mode)

/-- C5 witness: the amended statement at a concrete store, content and mode. -/
theorem checkpoint_file_effects_witness :
    bestAccModelFile = bestValidModelFile
    ∧ writeFile (fun _ => none) bestAccModelFile 5 bestValidModelFile = some 5
    ∧ finalModelFile ≠ bestValidModelFile
    ∧ writeFile (fun _ => none) bestAccModelFile 5 finalModelFile
        = (fun _ => (none : Option ℕ)) finalModelFile
    ∧ writeFile (fun _ => none) bestAccModelFile 5 (bestValidHeadFile "jigsaw")
        = (fun _ => (none : Option ℕ)) (bestValidHeadFile "jigsaw")
    ∧ writeFile (fun _ => none) bestAccModelFile 5 (finalHeadFile "jigsaw")
        = (fun _ => (none : Option ℕ)) (finalHeadFile "jigsaw") :=
  checkpoint_file_effects (fun _ => none) 5 "jigsaw"

/-- The exact-match count never exceeds the number of labels. -/
lemma matchCount_le_length (preds labels : List ℕ) :
    matchCount preds labels ≤ labels.length := by
  induction preds generalizing labels with
  | nil => simp [matchCount]
  | cons p ps ih =>
      cases labels with
      | nil => simp [matchCount]
      | cons l ls =>
          have h := ih ls
          simp only [matchCount, List.zipWith_cons_cons, List.sum_cons,
            List.length_cons] at h ⊢
          split
          · omega
          · omega

/-- C6: the pretext accuracy returned by `_step` is the exact-match count
divided by the number of labels, and lies in `[0, 1]`. -/
theorem step_accuracy_bounds (preds labels : List ℕ)
    (hlen : preds.length = labels.length) (hne : labels ≠ []) :
    stepAccuracy preds labels = (matchCount preds labels : ℚ) / (labels.length : ℚ)
    ∧ 0 ≤ stepAccuracy preds labels ∧ stepAccuracy preds labels ≤ 1 := by
  have hpos : 0 < labels.length := List.length_pos.mpr hne
  have hposQ : (0 : ℚ) < (labels.length : ℚ) := by exact_mod_cast hpos
  refine ⟨rfl, ?_, ?_⟩
  · exact div_nonneg (Nat.cast_nonneg _) (le_of_lt hposQ)
  · rw [stepAccuracy, div_le_one hposQ]
    exact_mod_cast matchCount_le_length preds labels

/-- C6 witness: three predictions against three labels, two of them exact
matches. -/
theorem step_accuracy_bounds_witness :
    stepAccuracy [0, 1, 2] [0, 1, 1]
        = (matchCount [0, 1, 2] [0, 1, 1] : ℚ) / (([0, 1, 1] : List ℕ).length : ℚ)
    ∧ 0 ≤ stepAccuracy [0, 1, 2] [0, 1, 1]
    ∧ stepAccuracy [0, 1, 2] [0, 1, 1] ≤ 1 :=
  step_accuracy_bounds [0, 1, 2] [0, 1, 1] (by decide) (by decide)

/-- C7 counterexample: with the unsupported name `vgg16`, the data loaders
are created first and only then is the unsupported-model error raised
(inside `train`), and the constructor — which raises only the
pretext-selection error — does not raise an unsupported-model error at all,
contradicting `raised at trainer construction, before any resource
allocation`. -/
theorem model_name_check_counterexample :
    trainSetupEvents "vgg16"
        = [TrainEvent.allocDataLoaders, TrainEvent.errorUnsupportedModel]
    ∧ trainerInitError true false = some TrainerError.pretextSelection := by
  constructor
  · decide
  · rfl

/-- C7 amended: for every unsupported base-model name, the
`ValueError(Unsupported model)` is raised during `train`, after the data
loaders are created and before the model and optimizer are created; the
constructor never raises the unsupported-model error. -/
theorem model_name_check_in_train (name : String)
    (h : name ∉ EMBEDDINGS_MODELS) (jigsaw rotation : Bool) :
    trainSetupEvents name
        = [TrainEvent.allocDataLoaders, TrainEvent.errorUnsupportedModel]
    ∧ trainerInitError jigsaw rotation ≠ some TrainerError.unsupportedModel := by
  constructor
  · unfold trainSetupEvents
    rw [if_neg h]
    rfl
  · unfold trainerInitError
    split
    · simp
    · simp

/-- C7 witness: the amended statement at the concrete name `vgg16`. -/
theorem model_name_check_in_train_witness :
    trainSetupEvents "vgg16"
        = [TrainEvent.allocDataLoaders, TrainEvent.errorUnsupportedModel]
    ∧ trainerInitError true false ≠ some TrainerError.unsupportedModel :=
  model_name_check_in_train "vgg16" (by decide) true false

/-- C8: constructing `OpenAnimalTracks` over a folder with no file matched
by the jpg glob raises the error naming `data_path`; with at least one
matched file it succeeds. -/
theorem open_animal_tracks_init_spec (cfg : DatasetConfig) (train : Bool)
    (dirFiles : List String) :
    ((∀ f ∈ dirFiles, globJpgMatch f = false) →
        openAnimalTracksInit cfg train dirFiles
          = Except.error ("Görüntü bulunamadı: " ++ oatDataPath cfg train))
    ∧ ((∃ f ∈ dirFiles, globJpgMatch f = true) →
        ∃ imgs, openAnimalTracksInit cfg train dirFiles = Except.ok imgs) := by
  constructor
  · intro hnone
    have hfil : dirFiles.filter globJpgMatch = [] := by
      rw [List.filter_eq_nil_iff]
      intro a ha
      simp [hnone a ha]
    simp [openAnimalTracksInit, hfil]
  · intro hex
    have hfil : dirFiles.filter globJpgMatch ≠ [] := by
      obtain ⟨f, hf, hm⟩ := hex
      intro hnil
      have := List.filter_eq_nil_iff.mp hnil f hf
      simp [hm] at this
    refine ⟨dirFiles.filter globJpgMatch, ?_⟩
    simp only [openAnimalTracksInit]
    rw [if_neg]
    simpa [List.length_eq_zero] using hfil

/-- C8 witness: a folder holding only `notes.txt` raises with the path in
the message; a folder holding `a.jpg` constructs successfully. -/
theorem open_animal_tracks_init_witness :
    openAnimalTracksInit ⟨"r", "tr", "te"⟩ true ["notes.txt"]
        = Except.error ("Görüntü bulunamadı: " ++ oatDataPath ⟨"r", "tr", "te"⟩ true)
    ∧ ∃ imgs, openAnimalTracksInit ⟨"r", "tr", "te"⟩ true ["a.jpg", "notes.txt"]
        = Except.ok imgs :=
  ⟨(open_animal_tracks_init_spec ⟨"r", "tr", "te"⟩ true ["notes.txt"]).1
      (by decide),
   (open_animal_tracks_init_spec ⟨"r", "tr", "te"⟩ true ["a.jpg", "notes.txt"]).2
      ⟨"a.jpg", by decide, by decide⟩⟩

/-- No scheduler step occurs among the batch steps. -/
lemma count_schedStep_replicate (n : ℕ) :
    (List.replicate n TrainEvent.batchStep).count TrainEvent.schedStep = 0 := by
  rw [List.count_replicate]
  rfl

/-- The number of scheduler steps in one epoch: none before epoch 10, one
from epoch 10 on. -/
lemma epochEvents_count_schedStep (numBatches vE eE e : ℕ) :
    (epochEvents numBatches vE eE e).count TrainEvent.schedStep
      = if 10 ≤ e then 1 else 0 := by
  unfold epochEvents
  rw [List.count_append, List.count_append, List.count_append,
    count_schedStep_replicate]
  by_cases h1 : e % vE = 0 <;> by_cases h2 : e % eE = 0 <;> by_cases h3 : 10 ≤ e <;>
    simp [h1, h2, h3, List.count_cons, List.count_nil]

/-- From epoch 10 on, the scheduler step is the last event of the epoch. -/
lemma epochEvents_getLast (numBatches vE eE e : ℕ) (h : 10 ≤ e) :
    (epochEvents numBatches vE eE e).getLast? = some TrainEvent.schedStep := by
  unfold epochEvents
  rw [if_pos h]
  exact List.getLast?_concat _

/-- Scheduler steps accumulated over epochs `1 .. n`. -/
lemma trainLoopEvents_count_schedStep (numBatches vE eE : ℕ) :
    ∀ n, (trainLoopEvents numBatches vE eE n).count TrainEvent.schedStep
      = n - min n 9 := by
  intro n
  induction n with
  | zero => rfl
  | succ k ih =>
      show (trainLoopEvents numBatches vE eE k
          ++ epochEvents numBatches vE eE (k + 1)).count TrainEvent.schedStep
        = (k + 1) - min (k + 1) 9
      rw [List.count_append, ih, epochEvents_count_schedStep]
      by_cases h : 10 ≤ k + 1
      · rw [if_pos h]
        omega
      · rw [if_neg h]
        omega

/-- C9: the cosine-annealing scheduler is never advanced in epochs 1-9; from
epoch 10 on it is advanced exactly once, as the last event of the epoch; its
period `T_max` is the number of training batches of one epoch; over a whole
run of `epochs` epochs the scheduler advances `epochs - min epochs 9`
times. -/
theorem scheduler_warmup_spec (numBatches vE eE epochs e : ℕ) (h1 : 1 ≤ e) :
    (e ≤ 9 → (epochEvents numBatches vE eE e).count TrainEvent.schedStep = 0)
    ∧ (10 ≤ e →
        (epochEvents numBatches vE eE e).count TrainEvent.schedStep = 1
        ∧ (epochEvents numBatches vE eE e).getLast? = some TrainEvent.schedStep)
    ∧ cosineAnnealingTMax numBatches = numBatches
    ∧ (trainLoopEvents numBatches vE eE epochs).count TrainEvent.schedStep
        = epochs - min epochs 9 := by
  refine ⟨?_, ?_, rfl, trainLoopEvents_count_schedStep numBatches vE eE epochs⟩
  · intro h9
    rw [epochEvents_count_schedStep, if_neg (by omega)]
  · intro h10
    exact ⟨by rw [epochEvents_count_schedStep, if_pos h10],
      epochEvents_getLast numBatches vE eE e h10⟩

/-- C9 witness: with 5 batches per epoch, epoch 3 takes no scheduler step,
epoch 12 takes exactly one, and a 12-epoch run takes 3 in total. -/
theorem scheduler_warmup_spec_witness :
    (epochEvents 5 1 1 3).count TrainEvent.schedStep = 0
    ∧ (epochEvents 5 1 1 12).count TrainEvent.schedStep = 1
    ∧ (trainLoopEvents 5 1 1 12).count TrainEvent.schedStep = 3 :=
  ⟨(scheduler_warmup_spec 5 1 1 12 3 (by decide)).1 (by decide),
   ((scheduler_warmup_spec 5 1 1 12 12 (by decide)).2.1 (by decide)).1,
   ((scheduler_warmup_spec 5 1 1 12 12 (by decide)).2.2.2).trans (by decide)⟩

/-- C10: every construction of `CustomDataset` fails: `__init__` stores the
root under the attribute `root`, but `_get_image_paths` reads the attribute
`root_dir`, which no method ever assigns, so the `AttributeError` is raised
for every combination of constructor arguments. -/
theorem customDataset_init_always_raises :
    ∀ (root : String) (train : Bool) (transform : PyVal) (download : Bool)
      (walkFiles : String → List String),
      customDatasetInit root train transform download walkFiles
        = Except.error
            "AttributeError: CustomDataset object has no attribute root_dir" := by
  intro root train transform download walkFiles
  rfl

/-- C10 witness: the failure at one concrete argument tuple. -/
theorem customDataset_init_always_raises_witness :
    customDatasetInit "/data" true PyVal.pyNone false (fun _ => [])
        = Except.error
            "AttributeError: CustomDataset object has no attribute root_dir" :=
  customDataset_init_always_raises "/data" true PyVal.pyNone false (fun _ => [])

end ScatSimCLR
